import Mathlib

/-!
Verification of `get_route_csv.py` (SeleniumAutoCSV).

Python strings are embedded as `List Char` (`PyStr`); the browser-automation
layer (Selenium) is modelled as an oracle describing which elements exist or
become visible, and the download directory as an explicit list of file
entries.  All definitions follow the source file `src/get_route_csv.py`;
definitions that instead transcribe the specification's wording (for
refinement comparison) say so in their doc comment.
-/

/-- A Python string, embedded as its list of characters. -/
abbrev PyStr := List Char

/-- Python `str.strip()`: remove leading and trailing whitespace
(used in `get_vehicles`, line 37). -/
def pyStrip (s : PyStr) : PyStr :=
  ((s.dropWhile Char.isWhitespace).reverse.dropWhile Char.isWhitespace).reverse

/-- Python `veh.startswith('#')` (line 37): true iff `"#"` is a prefix of the line. -/
def startsWithHash (s : PyStr) : Bool :=
  List.isPrefixOf "#".data s

/-- `get_vehicles` (lines 25-37): the file's lines with the `#`-initial ones
removed and each survivor stripped, in order.  The Python list comprehension
`[veh.strip() for veh in vehicles if not veh.startswith(hash)]` is
filter-then-map. -/
def get_vehicles (lines : List PyStr) : List PyStr :=
  (lines.filter (fun l => !startsWithHash l)).map pyStrip

/-- A naive Python `datetime` value (year, month, day, hour, minute, second),
as produced by `datetime.now()` (line 148). -/
structure PyDateTime where
  year : Nat
  month : Nat
  day : Nat
  hour : Nat
  minute : Nat
  second : Nat
deriving DecidableEq

/-- Gregorian leap-year rule, as in Python's `datetime` module. -/
def isLeap (y : Nat) : Bool :=
  (y % 4 == 0 && !(y % 100 == 0)) || y % 400 == 0

/-- Number of days in month `m` of year `y` (months are 1-based). -/
def daysInMonth (y m : Nat) : Nat :=
  if m = 2 then (if isLeap y then 29 else 28)
  else if m = 4 ∨ m = 6 ∨ m = 9 ∨ m = 11 then 30
  else 31

/-- Models `datetime.now() - timedelta(days=1)` (line 148).  Python subtracts
one from the date's proleptic-Gregorian ordinal and keeps the time of day;
`toOrdinal_subOneDay` below proves that this calendar-step function computes
exactly that ordinal decrement. -/
def subOneDay (d : PyDateTime) : PyDateTime :=
  if 1 < d.day then { d with day := d.day - 1 }
  else if 1 < d.month then
    { d with month := d.month - 1, day := daysInMonth d.year (d.month - 1) }
  else
    { d with year := d.year - 1, month := 12, day := 31 }

/-- Sum of the lengths of the months strictly before month `m` in year `y`. -/
def daysBeforeMonth (y m : Nat) : Nat :=
  ((List.range (m - 1)).map (fun i => daysInMonth y (i + 1))).sum

/-- Number of leap years in `1..y`. -/
def leapsBefore (y : Nat) : Nat := y / 4 - y / 100 + y / 400

/-- Days strictly before January 1 of year `y` (so year 1 starts at ordinal 1,
as in Python's `date.toordinal`). -/
def daysBeforeYear (y : Nat) : Nat := 365 * (y - 1) + leapsBefore (y - 1)

/-- Proleptic-Gregorian ordinal of a date, as in Python's `date.toordinal`:
January 1 of year 1 is day 1. -/
def toOrdinal (d : PyDateTime) : Nat :=
  daysBeforeYear d.year + daysBeforeMonth d.year d.month + d.day

/-- A structurally valid calendar date. -/
def ValidDate (d : PyDateTime) : Prop :=
  1 ≤ d.year ∧ 1 ≤ d.month ∧ d.month ≤ 12 ∧ 1 ≤ d.day ∧
    d.day ≤ daysInMonth d.year d.month

instance (d : PyDateTime) : Decidable (ValidDate d) := by
  unfold ValidDate; infer_instance

/-- Left-pad a digit string with zeros to width `w`
(strftime zero-padding). -/
def padZeros (w : Nat) (s : PyStr) : PyStr :=
  List.replicate (w - s.length) '0' ++ s

/-- strftime `%d` / `%m`: the number zero-padded to two digits. -/
def fmt2 (n : Nat) : PyStr := padZeros 2 (Nat.toDigits 10 n)

/-- strftime `%Y`: the year zero-padded to four digits. -/
def fmt4 (n : Nat) : PyStr := padZeros 4 (Nat.toDigits 10 n)

/-- `strftime('%d/%m/%Y')` (line 148). -/
def strftimeDMY (d : PyDateTime) : PyStr :=
  fmt2 d.day ++ "/".data ++ fmt2 d.month ++ "/".data ++ fmt4 d.year

/-- The `yesterday` string computed by `download_csv` (line 148):
`(datetime.now() - timedelta(days=1)).strftime('%d/%m/%Y')`. -/
def yesterdayOf (now : PyDateTime) : PyStr := strftimeDMY (subOneDay now)

/-- The export URL built by `download_csv` (lines 149-154), chunked exactly as
the Python adjacent string literals are. -/
def download_url (yesterday aid aname : PyStr) : PyStr :=
  "https://www.dennisconnect.co.uk/_handler/csv.ashx?".data ++
  "req=HISTORY_LIST&".data ++
  ("sdate=".data ++ yesterday ++ "%2000:00&edate=".data ++ yesterday ++ "%2023:59".data) ++
  ("&atype=V&aid=".data ++ aid ++ "&aname=".data ++ aname) ++
  "&locfil=&useshape=false&dtl=0&s2r=false".data ++
  "&showdriverbehavioralerts=false".data

/-- Modelled from the spec: the export-URL template of section 6, with
`<portal-host>` instantiated to the host appearing in the code and the two
date fields and two identifier fields substituted.  Note the spec's final
parameter name is `showdriverbehavioralalerts`. -/
def spec_url (d aid aname : PyStr) : PyStr :=
  "https://www.dennisconnect.co.uk/_handler/csv.ashx?req=HISTORY_LIST&sdate=".data ++ d ++
  "%2000:00&edate=".data ++ d ++
  "%2023:59&atype=V&aid=".data ++ aid ++
  "&aname=".data ++ aname ++
  "&locfil=&useshape=false&dtl=0&s2r=false&showdriverbehavioralalerts=false".data

/-- The spec's template with the final parameter name amended to the code's
spelling `showdriverbehavioralerts`. -/
def spec_url_amended (d aid aname : PyStr) : PyStr :=
  "https://www.dennisconnect.co.uk/_handler/csv.ashx?req=HISTORY_LIST&sdate=".data ++ d ++
  "%2000:00&edate=".data ++ d ++
  "%2023:59&atype=V&aid=".data ++ aid ++
  "&aname=".data ++ aname ++
  "&locfil=&useshape=false&dtl=0&s2r=false&showdriverbehavioralerts=false".data

/-- Everything of the code's URL before the `aid` substitution point. -/
def url_head (d : PyStr) : PyStr :=
  "https://www.dennisconnect.co.uk/_handler/csv.ashx?req=HISTORY_LIST&sdate=".data ++ d ++
  "%2000:00&edate=".data ++ d ++ "%2023:59&atype=V&aid=".data

/-- Everything of the code's URL after the `aname` substitution point. -/
def url_tail : PyStr :=
  "&locfil=&useshape=false&dtl=0&s2r=false&showdriverbehavioralerts=false".data

/-- Python `downloaded[2:-4]` (line 161): characters from index 2 up to, but
not including, index `len - 4`. -/
def pySliceStem (s : PyStr) : PyStr := (s.take (s.length - 4)).drop 2

/-- The new file name computed on line 161:
`f'./{aname}_{downloaded[2:-4]}.csv'`. -/
def rename_target (downloaded aname : PyStr) : PyStr :=
  "./".data ++ aname ++ "_".data ++ pySliceStem downloaded ++ ".csv".data

/-- The error classes relevant to the script: Selenium's
`NoSuchElementException` and `TimeoutException` (imported on line 23), and
Python's built-in `ValueError` (raised by `max` on an empty sequence). -/
inductive PyErr where
  | noSuchElement
  | timeoutExpired
  | valueError
deriving DecidableEq

/-- The `except (NoSuchElementException, TimeoutException)` clause
(line 177): which error classes the top-level handler catches. -/
def caught_by_main (e : PyErr) : Bool :=
  e == PyErr.noSuchElement || e == PyErr.timeoutExpired

/-- A file in the download directory, with its creation time
(`os.path.getctime`). -/
structure FileEntry where
  name : PyStr
  ctime : Nat
deriving DecidableEq

/-- Python `max(files, key=...)` (line 160): raises `ValueError` on an empty
sequence, otherwise returns the first element of maximal key. -/
def pyMax (key : FileEntry → Nat) : List FileEntry → Except PyErr FileEntry
  | [] => Except.error PyErr.valueError
  | x :: xs => Except.ok (xs.foldl (fun acc y => if key acc < key y then y else acc) x)

/-- The file-handling phase of `download_csv` (lines 159-162), given the
directory's CSV entries as enumerated by `glob.glob('./*.csv')`: take the
most recently created file and compute its renamed path. -/
def download_csv_rename (csvFiles : List FileEntry) (aname : PyStr) :
    Except PyErr PyStr :=
  match pyMax FileEntry.ctime csvFiles with
  | Except.error e => Except.error e
  | Except.ok f => Except.ok (rename_target f.name aname)

/-- Browser-session actions performed by `go_to_history`. -/
inductive BrowserAction where
  | click (target : PyStr)
  | switchFrame (frame : PyStr)
  | waitVisible (target : PyStr) (bound : Nat)
deriving DecidableEq

/-- The id of the control awaited and clicked on lines 113-117. -/
def pingListId : PyStr := "ctl00_cphcontent_htPingList".data

/-- The XPath of the History tab clicked on line 110. -/
def historyTabXPath : PyStr := "//*[@id=\"tabContainer\"]/li[3]".data

/-- `go_to_history` (lines 103-117), against an oracle giving the time at
which the awaited control becomes visible (`none` = never).
`WebDriverWait(driver, 10).until(visibility_of_element_located(...))` raises
`TimeoutException` iff the element is not visible within 10 time-units;
otherwise the function clicks the tab, switches frame, waits once and clicks
the awaited control once. -/
def go_to_history (pingListVisibleAt : Option Nat) : Except PyErr (List BrowserAction) :=
  match pingListVisibleAt with
  | some t =>
    if t ≤ 10 then
      Except.ok [BrowserAction.click historyTabXPath, BrowserAction.switchFrame "tab4frame".data,
        BrowserAction.waitVisible pingListId 10, BrowserAction.click pingListId]
    else Except.error PyErr.timeoutExpired
  | none => Except.error PyErr.timeoutExpired

/-- `get_vehicle_id` (lines 119-136), against the dropdown's option list as
(visible text, value-attribute) pairs.  `Select.select_by_visible_text`
raises `NoSuchElementException` when no option's text matches; otherwise the
function returns the pair (registration, value of the matching option). -/
def get_vehicle_id (options : List (PyStr × PyStr)) (vehicle : PyStr) :
    Except PyErr (PyStr × PyStr) :=
  match options.find? (fun o => o.1 == vehicle) with
  | none => Except.error PyErr.noSuchElement
  | some o => Except.ok (vehicle, o.2)

/-- Outcome of the `__main__` block (lines 165-178): `finished ps` = the loop
ran to completion over vehicles `ps`; `loggedExit ps e` = error `e` was
caught by the `except` clause after completing `ps`, logged, process exited;
`crashed ps e` = error `e` was not caught and propagated with a default
trace. -/
inductive RunResult where
  | finished (processed : List PyStr)
  | loggedExit (processed : List PyStr) (e : PyErr)
  | crashed (processed : List PyStr) (e : PyErr)
deriving DecidableEq

/-- The per-vehicle loop inside the `try` block (lines 170-178), against an
oracle `iter` giving the error (if any) raised while processing one vehicle
(login, go_to_history, get_vehicle_id, download_csv).  The surrounding
single `except (NoSuchElementException, TimeoutException)` decides between a
logged exit and a crash. -/
def main_loop (iter : PyStr → Option PyErr) : List PyStr → RunResult
  | [] => RunResult.finished []
  | v :: rest =>
    match iter v with
    | some e =>
      if caught_by_main e then RunResult.loggedExit [] e
      else RunResult.crashed [] e
    | none =>
      match main_loop iter rest with
      | RunResult.finished ps => RunResult.finished (v :: ps)
      | RunResult.loggedExit ps e => RunResult.loggedExit (v :: ps) e
      | RunResult.crashed ps e => RunResult.crashed (v :: ps) e

theorem startsWithHash_iff (l : PyStr) :
    startsWithHash l = (l.head? == some '#') := by
  cases l with
  | nil => rfl
  | cons c cs =>
    rcases eq_or_ne c '#' with h | h
    · subst h; simp [startsWithHash, List.isPrefixOf, List.head?]
    · have h1 : ('#' == c) = false := by simp [Ne.symm h]
      have h2 : (some c == some '#') = false := by simp [h]
      simp [startsWithHash, List.isPrefixOf, List.head?, h1, h2]

/-- C2: `get_vehicles` returns exactly the lines whose first character is not
the hash sign, each whitespace-stripped, in the original file order; an
all-comment input yields the empty list, and the vehicle list
["ABC123", "#DEF456", "GHI789"] yields ["ABC123", "GHI789"]. -/
theorem c2_get_vehicles_characterization :
    (∀ lines : List PyStr,
        get_vehicles lines =
          (lines.filter (fun l => !(l.head? == some '#'))).map pyStrip)
    ∧ (∀ lines : List PyStr, (∀ l ∈ lines, startsWithHash l = true) →
        get_vehicles lines = [])
    ∧ get_vehicles ["ABC123".data, "#DEF456".data, "GHI789".data] =
        ["ABC123".data, "GHI789".data] := by
  refine ⟨?_, ?_, by decide⟩
  · intro lines
    unfold get_vehicles
    congr 1
    apply List.filter_congr
    intro l _
    rw [startsWithHash_iff]
  · intro lines h
    have hf : lines.filter (fun l => !startsWithHash l) = [] := by
      rw [List.filter_eq_nil_iff]
      intro a ha
      simp [h a ha]
    simp [get_vehicles, hf]

theorem c2_get_vehicles_characterization_witness :
    get_vehicles ["#one".data, "#two".data] = [] :=
  c2_get_vehicles_characterization.2.1 ["#one".data, "#two".data] (by decide)

set_option maxRecDepth 4000 in
/-- C1 counterexample: at a concrete date, aid and aname, the URL built by
`download_csv` differs from the spec's template (the code's final parameter
name is `showdriverbehavioralerts`, the spec's is
`showdriverbehavioralalerts`). -/
theorem c1_url_counterexample :
    download_url "14/03/2024".data "123".data "ABC123".data ≠
      spec_url "14/03/2024".data "123".data "ABC123".data := by
  decide

/-- C1 (amended): for every date string, aid and aname, the URL built by
`download_csv` equals the spec's template with only the two date fields, aid
and aname substituted, where the final static parameter name reads
`showdriverbehavioralerts` rather than the spec's
`showdriverbehavioralalerts`. -/
theorem c1_url_matches_amended_template (d aid aname : PyStr) :
    download_url d aid aname = spec_url_amended d aid aname := by
  simp only [download_url, spec_url_amended, List.append_assoc]
  rfl

theorem download_url_decomp (d aid aname : PyStr) :
    download_url d aid aname =
      url_head d ++ (aid ++ ('&' :: ("aname=".data ++ (aname ++ url_tail)))) := by
  simp only [download_url, url_head, url_tail, List.append_assoc]
  rfl

theorem append_amp_inj (a₁ : PyStr) (t₁ : PyStr) (a₂ : PyStr) (t₂ : PyStr)
    (h₁ : '&' ∉ a₁) (h₂ : '&' ∉ a₂)
    (h : a₁ ++ '&' :: t₁ = a₂ ++ '&' :: t₂) : a₁ = a₂ ∧ t₁ = t₂ := by
  induction a₁ generalizing a₂ with
  | nil =>
    cases a₂ with
    | nil => simpa using h
    | cons b bs =>
      exfalso
      simp only [List.nil_append, List.cons_append, List.cons.injEq] at h
      exact h₂ (h.1 ▸ List.mem_cons_self b bs)
  | cons a as ih =>
    cases a₂ with
    | nil =>
      exfalso
      simp only [List.nil_append, List.cons_append, List.cons.injEq] at h
      exact h₁ (h.1.symm ▸ List.mem_cons_self a as)
    | cons b bs =>
      simp only [List.cons_append, List.cons.injEq] at h
      obtain ⟨hab, hrest⟩ := h
      have := ih bs (fun hx => h₁ (List.mem_cons_of_mem a hx))
        (fun hx => h₂ (List.mem_cons_of_mem b hx)) hrest
      exact ⟨by rw [hab, this.1], this.2⟩

set_option maxRecDepth 8000 in
/-- C9 counterexample: two distinct (display_name, internal_id) pairs for
which `download_csv` builds the same URL, because the internal id may itself
contain the text `&aname=`. -/
theorem c9_url_collision :
    download_url "14/03/2024".data "1".data "2&aname=3".data =
      download_url "14/03/2024".data "1&aname=2".data "3".data
    ∧ ("2&aname=3".data, "1".data) ≠ ("3".data, "1&aname=2".data) := by
  constructor
  · decide
  · decide

/-- C9 (amended): URL construction is injective over the identifier fields
provided the internal id contains no ampersand (as the portal-assigned
numeric ids do not): two pairs with ampersand-free internal ids that yield
the same URL for the same date are equal. -/
theorem c9_url_injective_amended (d aid₁ aname₁ aid₂ aname₂ : PyStr)
    (h₁ : '&' ∉ aid₁) (h₂ : '&' ∉ aid₂)
    (heq : download_url d aid₁ aname₁ = download_url d aid₂ aname₂) :
    (aname₁, aid₁) = (aname₂, aid₂) := by
  rw [download_url_decomp, download_url_decomp] at heq
  have h3 := List.append_cancel_left heq
  obtain ⟨h4, h5⟩ := append_amp_inj aid₁ _ aid₂ _ h₁ h₂ h3
  have h6 := List.append_cancel_left h5
  have h7 := List.append_cancel_right h6
  rw [h4, h7]

theorem c9_url_injective_amended_witness :
    (('&' ∉ ("42".data : PyStr)) ∧ ("A1".data, "42".data) = ("A1".data, "42".data)) :=
  ⟨by decide,
    c9_url_injective_amended "14/03/2024".data "42".data "A1".data "42".data "A1".data
      (by decide) (by decide) rfl⟩

theorem pySliceStem_roundtrip (stem : PyStr) :
    pySliceStem ("./".data ++ stem ++ ".csv".data) = stem := by
  unfold pySliceStem
  have h1 : ("./".data ++ stem ++ ".csv".data).length = stem.length + 6 := by
    simp [List.length_append]
  rw [h1]
  have h2 : stem.length + 6 - 4 = stem.length + 1 + 1 := by omega
  rw [h2]
  have h3 : "./".data ++ stem ++ ".csv".data =
      '.' :: '/' :: (stem ++ ".csv".data) := rfl
  rw [h3, List.take_succ_cons, List.take_succ_cons]
  have h4 : (stem ++ ".csv".data).take stem.length = stem := List.take_left stem _
  rw [h4]
  rfl

/-- C4: for every stem and display name, the rename performed by
`download_csv` strips the leading dot-slash and the trailing `.csv` from the
old name, prepends the display name and an underscore, and re-appends
`.csv`; in particular `./ABC123_20240314.csv` with display name `XYZ` yields
`./XYZ_ABC123_20240314.csv`. -/
theorem c4_rename_transform :
    (∀ stem aname : PyStr,
        rename_target ("./".data ++ stem ++ ".csv".data) aname =
          "./".data ++ aname ++ "_".data ++ stem ++ ".csv".data)
    ∧ rename_target "./ABC123_20240314.csv".data "XYZ".data =
        "./XYZ_ABC123_20240314.csv".data := by
  constructor
  · intro stem aname
    unfold rename_target
    rw [pySliceStem_roundtrip]
  · decide

/-- C5 counterexample: with no CSV file in the directory, `download_csv` does
not complete without raising — `max` over the empty glob raises. -/
theorem c5_empty_dir_not_silent :
    ¬ ∃ r, download_csv_rename [] "ABC123".data = Except.ok r := by
  intro hex
  obtain ⟨r, hr⟩ := hex
  simp [download_csv_rename, pyMax] at hr

/-- C5 (amended): when the directory contains no file matching the CSV
suffix, `download_csv` raises `ValueError` (from `max` on an empty
sequence), and this error class is not among those the top-level `except`
clause catches, so the process crashes with a default trace rather than
failing silently. -/
theorem c5_empty_dir_raises (aname : PyStr) :
    download_csv_rename [] aname = Except.error PyErr.valueError
    ∧ caught_by_main PyErr.valueError = false :=
  ⟨rfl, rfl⟩

theorem main_loop_first_failure (iter : PyStr → Option PyErr)
    (pre : List PyStr) (v : PyStr) (post : List PyStr) (e : PyErr)
    (hpre : ∀ u ∈ pre, iter u = none) (hv : iter v = some e) :
    main_loop iter (pre ++ v :: post) =
      (if caught_by_main e then RunResult.loggedExit pre e
       else RunResult.crashed pre e) := by
  induction pre with
  | nil => simp [main_loop, hv]
  | cons u us ih =>
    have hu : iter u = none := hpre u (List.mem_cons_self u us)
    have ih2 := ih (fun x hx => hpre x (List.mem_cons_of_mem u hx))
    simp only [List.cons_append, main_loop, hu, List.append_eq, ih2]
    by_cases hc : caught_by_main e
    · simp [hc]
    · simp [hc]

/-- C6: `go_to_history` fails with a Timeout error iff the awaited control
does not become visible within the fixed bound of 10 time-units, and on
success performs exactly one wait followed by one click of that control,
with no retry loop around the wait. -/
theorem c6_go_to_history_timeout (vis : Option Nat) :
    (go_to_history vis = Except.error PyErr.timeoutExpired ↔
        ¬ ∃ t, vis = some t ∧ t ≤ 10)
    ∧ (∀ acts, go_to_history vis = Except.ok acts →
        acts = [BrowserAction.click historyTabXPath,
          BrowserAction.switchFrame "tab4frame".data,
          BrowserAction.waitVisible pingListId 10,
          BrowserAction.click pingListId]
        ∧ acts.count (BrowserAction.waitVisible pingListId 10) = 1
        ∧ acts.count (BrowserAction.click pingListId) = 1) := by
  cases vis with
  | none =>
    refine ⟨iff_of_true rfl ?_, ?_⟩
    · rintro ⟨t', ht', -⟩
      cases ht'
    · intro acts h
      simp [go_to_history] at h
  | some t =>
    by_cases h : t ≤ 10
    · have heq : go_to_history (some t) =
          Except.ok [BrowserAction.click historyTabXPath,
            BrowserAction.switchFrame "tab4frame".data,
            BrowserAction.waitVisible pingListId 10,
            BrowserAction.click pingListId] := by
        simp [go_to_history, h]
      refine ⟨iff_of_false ?_ ?_, ?_⟩
      · rw [heq]; simp
      · intro hno; exact hno ⟨t, rfl, h⟩
      · intro acts ha
        rw [heq, Except.ok.injEq] at ha
        subst ha
        refine ⟨rfl, by decide, by decide⟩
    · have heq : go_to_history (some t) = Except.error PyErr.timeoutExpired := by
        simp [go_to_history, h]
      refine ⟨iff_of_true heq ?_, ?_⟩
      · rintro ⟨t', ht', hle⟩
        cases ht'
        exact h hle
      · intro acts ha
        rw [heq] at ha
        exact absurd ha (by simp)

theorem c6_go_to_history_timeout_witness :
    [BrowserAction.click historyTabXPath,
      BrowserAction.switchFrame "tab4frame".data,
      BrowserAction.waitVisible pingListId 10,
      BrowserAction.click pingListId].count (BrowserAction.click pingListId) = 1 :=
  (((c6_go_to_history_timeout (some 3)).2 _ rfl).2).2

/-- C7: if any iteration of the per-vehicle loop raises ElementNotFound or
Timeout, the error is caught exactly once at the outermost scope, the run
ends in a logged exit having processed only the vehicles before the failing
one (no remaining vehicle is attempted); every other error class crashes the
process with a default trace.  The handled set is exactly
{NoSuchElement, Timeout}. -/
theorem c7_top_level_handler (iter : PyStr → Option PyErr)
    (pre : List PyStr) (v : PyStr) (post : List PyStr) (e : PyErr)
    (hpre : ∀ u ∈ pre, iter u = none) (hv : iter v = some e) :
    ((e = PyErr.noSuchElement ∨ e = PyErr.timeoutExpired) →
        main_loop iter (pre ++ v :: post) = RunResult.loggedExit pre e)
    ∧ ((e ≠ PyErr.noSuchElement ∧ e ≠ PyErr.timeoutExpired) →
        main_loop iter (pre ++ v :: post) = RunResult.crashed pre e)
    ∧ (caught_by_main e = true ↔
        (e = PyErr.noSuchElement ∨ e = PyErr.timeoutExpired)) := by
  have key := main_loop_first_failure iter pre v post e hpre hv
  have hcc : caught_by_main e = true ↔
      (e = PyErr.noSuchElement ∨ e = PyErr.timeoutExpired) := by
    cases e <;> simp [caught_by_main]
  refine ⟨?_, ?_, hcc⟩
  · intro hin
    rw [key, if_pos (hcc.mpr hin)]
  · intro hout
    have : caught_by_main e = false := by
      cases e <;> simp_all [caught_by_main]
    rw [key, this]
    simp

theorem c7_top_level_handler_witness :
    main_loop
      (fun u => if u = "BAD".data then some PyErr.timeoutExpired else none)
      ("OK1".data :: "BAD".data :: ["OK2".data]) =
      RunResult.loggedExit ["OK1".data] PyErr.timeoutExpired :=
  (c7_top_level_handler
      (fun u => if u = "BAD".data then some PyErr.timeoutExpired else none)
      ["OK1".data] "BAD".data ["OK2".data] PyErr.timeoutExpired
      (by decide) (by decide)).1 (Or.inr rfl)

/-- C8 counterexample: a display name with no matching option makes
`get_vehicle_id` raise NoSuchElement, but this error class IS matched by the
top-level `except (NoSuchElementException, TimeoutException)` clause,
contradicting the claim that it is uncaught by that clause. -/
theorem c8_missing_option_is_caught :
    get_vehicle_id [("AB12CDE".data, "1042".data)] "ZZ99ZZZ".data =
      Except.error PyErr.noSuchElement
    ∧ caught_by_main PyErr.noSuchElement = true := by
  constructor
  · rfl
  · rfl

/-- C8 (amended): when `get_vehicle_id` is called with a display name that
has no matching option, the resulting ElementNotFound error IS caught by the
specific `except` clause at the top level (and logged); the run still aborts
the whole batch, processing no vehicle after the failing one. -/
theorem c8_missing_option_aborts_batch
    (options : List (PyStr × PyStr)) (vehicle : PyStr)
    (hmiss : options.find? (fun o => o.1 == vehicle) = none)
    (iter : PyStr → Option PyErr) (pre post : List PyStr)
    (hpre : ∀ u ∈ pre, iter u = none)
    (hv : iter vehicle = some PyErr.noSuchElement) :
    get_vehicle_id options vehicle = Except.error PyErr.noSuchElement
    ∧ caught_by_main PyErr.noSuchElement = true
    ∧ main_loop iter (pre ++ vehicle :: post) =
        RunResult.loggedExit pre PyErr.noSuchElement := by
  refine ⟨?_, rfl, ?_⟩
  · simp [get_vehicle_id, hmiss]
  · have key := main_loop_first_failure iter pre vehicle post
      PyErr.noSuchElement hpre hv
    simpa [caught_by_main] using key

theorem c8_missing_option_aborts_batch_witness :
    main_loop
      (fun u => if u = "ZZ99ZZZ".data then some PyErr.noSuchElement else none)
      ("AB12CDE".data :: "ZZ99ZZZ".data :: ["CD34EFG".data]) =
      RunResult.loggedExit ["AB12CDE".data] PyErr.noSuchElement :=
  (c8_missing_option_aborts_batch [("AB12CDE".data, "1042".data)] "ZZ99ZZZ".data
      (by decide)
      (fun u => if u = "ZZ99ZZZ".data then some PyErr.noSuchElement else none)
      ["AB12CDE".data] ["CD34EFG".data] (by decide) (by decide)).2.2

/-- C10: `get_vehicles` does not filter blank lines — every line that is
empty or whitespace-only (such a line cannot start with the hash sign)
contributes an empty-string entry to the returned list, and the main loop
then processes that empty string as a vehicle. -/
theorem c10_blank_lines_become_empty_entries :
    (∀ (lines : List PyStr) (l : PyStr), l ∈ lines →
        (∀ c ∈ l, c.isWhitespace) →
        pyStrip l = [] ∧ [] ∈ get_vehicles lines)
    ∧ get_vehicles ["ABC".data, [], "   ".data] = ["ABC".data, [], []]
    ∧ main_loop (fun _ => none) (get_vehicles ["ABC".data, [], "   ".data]) =
        RunResult.finished ["ABC".data, [], []] := by
  refine ⟨?_, by decide, by decide⟩
  intro lines l hl hw
  have hdrop : l.dropWhile Char.isWhitespace = [] :=
    List.dropWhile_eq_nil_iff.mpr hw
  have hstrip : pyStrip l = [] := by
    simp [pyStrip, hdrop]
  have hhash : startsWithHash l = false := by
    cases l with
    | nil => rfl
    | cons c cs =>
      have hc : c ≠ '#' := by
        intro hc
        have := hw c (List.mem_cons_self c cs)
        rw [hc] at this
        simp at this
      rw [startsWithHash_iff]
      simp [hc]
  refine ⟨hstrip, ?_⟩
  rw [show ([] : PyStr) = pyStrip l from hstrip.symm]
  exact List.mem_map_of_mem pyStrip
    (List.mem_filter.mpr ⟨hl, by simp [hhash]⟩)

theorem c10_blank_lines_become_empty_entries_witness :
    pyStrip " ".data = [] ∧ [] ∈ get_vehicles [" ".data] :=
  c10_blank_lines_become_empty_entries.1 [" ".data] " ".data
    (by decide) (by decide)

theorem isLeap_iff (y : Nat) :
    isLeap y = true ↔ ((y % 4 = 0 ∧ y % 100 ≠ 0) ∨ y % 400 = 0) := by
  simp [isLeap]

theorem daysBeforeMonth_succ (y k : Nat) :
    daysBeforeMonth y (k + 2) =
      daysBeforeMonth y (k + 1) + daysInMonth y (k + 1) := by
  simp [daysBeforeMonth, List.range_succ]

theorem daysBeforeMonth_year_total (y : Nat) :
    daysBeforeMonth y 12 + 31 = if isLeap y then 366 else 365 := by
  by_cases h : isLeap y <;>
    simp [daysBeforeMonth, daysInMonth, h, List.range_succ]

theorem daysBeforeYear_succ (k : Nat) (hk : 1 ≤ k) :
    daysBeforeYear (k + 1) = daysBeforeYear k + (daysBeforeMonth k 12 + 31) := by
  rw [daysBeforeMonth_year_total]
  unfold daysBeforeYear leapsBefore
  cases h : isLeap k with
  | true =>
    have hl := (isLeap_iff k).mp h
    rw [if_pos rfl]
    omega
  | false =>
    have hl : ¬((k % 4 = 0 ∧ k % 100 ≠ 0) ∨ k % 400 = 0) := by
      rw [← isLeap_iff, h]; simp
    rw [if_neg (by simp : ¬((false : Bool) = true))]
    omega

theorem toOrdinal_subOneDay (d : PyDateTime) (hv : ValidDate d)
    (hy : 2 ≤ d.year) : toOrdinal (subOneDay d) + 1 = toOrdinal d := by
  obtain ⟨h1, h2, h3, h4, h5⟩ := hv
  unfold subOneDay
  by_cases hd : 1 < d.day
  · rw [if_pos hd]
    unfold toOrdinal
    dsimp only
    omega
  · rw [if_neg hd]
    have hd1 : d.day = 1 := by omega
    by_cases hm : 1 < d.month
    · rw [if_pos hm]
      unfold toOrdinal
      dsimp only
      have hstep : daysBeforeMonth d.year d.month =
          daysBeforeMonth d.year (d.month - 1) +
            daysInMonth d.year (d.month - 1) := by
        obtain ⟨k, hk⟩ : ∃ k, d.month = k + 2 := ⟨d.month - 2, by omega⟩
        rw [hk]
        have he : k + 2 - 1 = k + 1 := rfl
        rw [he, daysBeforeMonth_succ]
      omega
    · rw [if_neg hm]
      have hm1 : d.month = 1 := by omega
      unfold toOrdinal
      dsimp only
      have h12 : daysBeforeMonth d.year 1 = 0 := rfl
      have hstep := daysBeforeYear_succ (d.year - 1) (by omega)
      have hyy : d.year - 1 + 1 = d.year := by omega
      rw [hyy] at hstep
      rw [hm1, hd1, h12]
      omega

set_option maxRecDepth 4000 in
/-- C3: the date bound embedded in the export URL is the calendar day before
the wall-clock now at call time (one less in proleptic-Gregorian ordinal),
formatted DD/MM/YYYY, and the same value occupies both the sdate and edate
bounds of the URL; for a fixed now of 2024-03-15T10:00:00 the computed date
is 14/03/2024. -/
theorem c3_date_bound (now : PyDateTime) (aid aname : PyStr)
    (hv : ValidDate now) (hy : 2 ≤ now.year) :
    toOrdinal (subOneDay now) + 1 = toOrdinal now
    ∧ yesterdayOf now = strftimeDMY (subOneDay now)
    ∧ download_url (yesterdayOf now) aid aname =
        url_head (yesterdayOf now) ++
          (aid ++ ('&' :: ("aname=".data ++ (aname ++ url_tail))))
    ∧ yesterdayOf ⟨2024, 3, 15, 10, 0, 0⟩ = "14/03/2024".data :=
  ⟨toOrdinal_subOneDay now hv hy, rfl,
   download_url_decomp (yesterdayOf now) aid aname, by decide⟩

theorem c3_date_bound_witness :
    toOrdinal (subOneDay ⟨2024, 3, 15, 10, 0, 0⟩) + 1 =
      toOrdinal ⟨2024, 3, 15, 10, 0, 0⟩
    ∧ yesterdayOf ⟨2024, 3, 15, 10, 0, 0⟩ = "14/03/2024".data :=
  ⟨(c3_date_bound ⟨2024, 3, 15, 10, 0, 0⟩ [] [] (by decide) (by decide)).1,
   (c3_date_bound ⟨2024, 3, 15, 10, 0, 0⟩ [] [] (by decide) (by decide)).2.2.2⟩
